import Mathlib

/-!
Shallow embedding of the ESP SYSTIMER peripheral driver (`esp-hal/src/systimer.rs`):
the per-channel alarm register state machine, the interrupt-to-async bridge
(`AlarmFuture`, the `targetN_handler` interrupt handlers, the per-channel waker
slots), and the ETM event export.  Register contents are modelled as explicit
state; machine integers are `Nat` with `% 2 ^ 32` where the source truncates to
`u32`.  All definitions are executable.
-/

/-- Chip family selector.  The source is conditionally compiled for `esp32s2`
versus the group `esp32c2 / esp32c3 / esp32c6 / esp32h2 / esp32s3`; the
constructor `esp32c3` stands for that whole non-s2 group, whose `cfg` branches
are identical. -/
inductive Family where
  | esp32s2
  | esp32c3
  deriving DecidableEq

/-- SystemTimer::TICKS_PER_SECOND (systimer.rs lines 64-68): 80 MHz on esp32s2,
16 MHz on the other families. -/
def Family.ticksPerSecond : Family → Nat
  | .esp32s2 => 80000000
  | .esp32c3 => 16000000

/-- SystemTimer::BIT_MASK (systimer.rs lines 58-62): all 64 bits on esp32s2,
the low 52 bits elsewhere. -/
def Family.bitMask : Family → Nat
  | .esp32s2 => 2 ^ 64 - 1
  | .esp32c3 => 0xFFFFFFFFFFFFF

/-- The per-channel register group handed to `Alarm::configure`'s closure:
the `targetN_conf` register (fields `period_mode`, `period`, `unit_sel`, and on
esp32s2 the per-channel `work_en` bit), plus the `targetN_hi` / `targetN_lo`
compare registers.  A svd2rust `write` resets every unmentioned field of the
written register to its reset value (here `false` / `0`). -/
structure ChanRegs where
  period_mode : Bool
  period : Nat
  unit_sel : Bool
  work_en : Bool
  target_hi : Nat
  target_lo : Nat
  deriving DecidableEq

/-- Observable SYSTIMER driver state: the three channels' register groups,
the shared configuration bits touched by `configure`, the shared interrupt
enable / pending registers, the interrupt-controller binding installed by
`bind_interrupt` / `enable` (per channel: which `targetN_handler` is bound and
at which priority the vector is enabled), the per-channel `AtomicWaker` slots,
and the list of wakers woken so far.  Wakers are identified by `Nat` tokens.
The self-clearing `compN_load` write-only trigger is a pulse, not retained
register state, and is not modelled. -/
structure SysState where
  chan : Fin 3 → ChanRegs
  xtal_step : Nat
  stall_en : Bool
  work_en : Fin 3 → Bool
  etm_en : Bool
  int_ena : Fin 3 → Bool
  pending : Fin 3 → Bool
  bound : Fin 3 → Option (Fin 3)
  vec_prio : Fin 3 → Option Nat
  wakers : Fin 3 → Option Nat
  woken : List Nat

/-- Waker tokens. -/
abbrev Waker := Nat

/-- Alarm::configure (systimer.rs lines 143-216).  On esp32s2: write the shared
`step` register (xtal step 1), run the caller's register writes on channel `n`,
then `modify` the channel's conf register to set its `work_en` bit.  On the
other families: full-write the channel conf register clearing `unit_sel`
(resetting the other conf fields), clear the shared `stall_en` bit, run the
caller's writes, pulse `compN_load` (not retained state), and set the channel's
bit in the shared `work_en` register. -/
def configure (fam : Family) (n : Fin 3) (f : ChanRegs → ChanRegs) (s : SysState) : SysState :=
  match fam with
  | .esp32s2 =>
      let s1 := { s with xtal_step := 1 }
      let s2 := { s1 with chan := Function.update s1.chan n (f (s1.chan n)) }
      { s2 with chan := Function.update s2.chan n ({ f (s1.chan n) with work_en := true }) }
  | .esp32c3 =>
      let r1 := { s.chan n with period_mode := false, period := 0,
                                unit_sel := false, work_en := false }
      let s1 := { s with chan := Function.update s.chan n r1 }
      let s2 := { s1 with stall_en := false }
      let s3 := { s2 with chan := Function.update s2.chan n (f (s2.chan n)) }
      { s3 with work_en := Function.update s3.work_en n true }

/-- Alarm::<Target>::set_target (systimer.rs lines 289-295): full-write the conf
register with `period_mode` cleared, then write `timestamp >> 32` (as u32) into
the high compare register and `timestamp & 0xFFFF_FFFF` (as u32) into the low
compare register. -/
def setTarget (fam : Family) (n : Fin 3) (timestamp : Nat) (s : SysState) : SysState :=
  configure fam n (fun r =>
    let r1 := { r with period_mode := false, period := 0, unit_sel := false, work_en := false }
    let r2 := { r1 with target_hi := (timestamp / 2 ^ 32) % 2 ^ 32 }
    { r2 with target_lo := timestamp % 2 ^ 32 }) s

/-- The tick count computed by Alarm::<Periodic>::set_period (systimer.rs lines
306-307): `us * (TICKS_PER_SECOND / 1_000_000) as u32`, a `u32` multiplication,
hence taken modulo `2 ^ 32` (release-profile wrapping semantics). -/
def periodTicks (fam : Family) (us : Nat) : Nat :=
  (us * (fam.ticksPerSecond / 1000000)) % 2 ^ 32

/-- Alarm::<Periodic>::set_period (systimer.rs lines 305-319): full-write the
conf register with `period_mode` set and the converted tick interval in the
`period` field, then write zero into both compare registers. -/
def setPeriod (fam : Family) (n : Fin 3) (us : Nat) (s : SysState) : SysState :=
  configure fam n (fun r =>
    let r1 := { r with period_mode := true, period := periodTicks fam us,
                       unit_sel := false, work_en := false }
    let r2 := { r1 with target_hi := 0 }
    { r2 with target_lo := 0 }) s

/-- Alarm::enable_interrupt_internal (systimer.rs lines 218-226): `modify` the
shared `int_ena` register, setting channel `n`'s bit to `val`. -/
def enableInterruptInternal (n : Fin 3) (val : Bool) (s : SysState) : SysState :=
  { s with int_ena := Function.update s.int_ena n val }

/-- Alarm::clear_interrupt_internal (systimer.rs lines 228-236): write the
shared write-one-to-clear `int_clr` register with only channel `n`'s bit set,
clearing that channel's pending flag; the zero written to the other channels'
bits leaves their pending flags unchanged. -/
def clearInterruptInternal (n : Fin 3) (s : SysState) : SysState :=
  { s with pending := Function.update s.pending n false }

/-- The handler chosen by the `match N` in AlarmFuture::new (systimer.rs lines
389-402): channel 0 binds `target0_handler`, channel 1 binds `target1_handler`,
and the default arm binds `target2_handler`.  Handlers are named by their
channel index. -/
def boundHandler (n : Fin 3) : Fin 3 :=
  if n.val = 0 then 0 else if n.val = 1 then 1 else 2

/-- AlarmFuture::new (systimer.rs lines 386-414), sequentially: clear the
channel's pending flag, bind the channel's interrupt vector to its
`targetN_handler`, enable the vector at the handler's priority `prio`, then set
the channel's interrupt-enable bit. -/
def alarmFutureNew (n : Fin 3) (prio : Nat) (s : SysState) : SysState :=
  let s1 := clearInterruptInternal n s
  let s2 := { s1 with bound := Function.update s1.bound n (some (boundHandler n)) }
  let s3 := { s2 with vec_prio := Function.update s2.vec_prio n (some prio) }
  enableInterruptInternal n true s3

/-- AlarmFuture::event_bit_is_clear (systimer.rs lines 416-427): read the
shared `int_ena` register and test whether channel `n`'s bit is clear. -/
def eventBitIsClear (n : Fin 3) (s : SysState) : Bool :=
  !(s.int_ena n)

/-- Future::poll for AlarmFuture (systimer.rs lines 430-442): first register
the caller's waker into the channel's slot (`WAKERS[N].register`, which
overwrites any previously stored waker), then return Ready (`true`) exactly
when the interrupt-enable bit is already clear, Pending (`false`) otherwise. -/
def pollAlarmFuture (n : Fin 3) (w : Waker) (s : SysState) : Bool × SysState :=
  let s1 := { s with wakers := Function.update s.wakers n (some w) }
  (eventBitIsClear n s1, s1)

/-- WAKERS[n].wake() of the external `embassy_sync` AtomicWaker: take the waker
currently occupying channel `n`'s slot, if any, and wake it (record it in
`woken`); an empty slot wakes nothing. -/
def wakeSlot (n : Fin 3) (s : SysState) : SysState :=
  match s.wakers n with
  | some w => { s with woken := w :: s.woken, wakers := Function.update s.wakers n none }
  | none => s

/-- targetN_handler (systimer.rs lines 461-487): `modify` the shared `int_ena`
register clearing channel `n`'s bit, then wake channel `n`'s waker slot.  The
three source handlers `target0_handler` / `target1_handler` / `target2_handler`
are identical up to the channel index and are modelled by this one indexed
definition. -/
def targetHandler (n : Fin 3) (s : SysState) : SysState :=
  wakeSlot n { s with int_ena := Function.update s.int_ena n false }

/-- target0_handler (systimer.rs lines 461-468). -/
def target0_handler : SysState → SysState := targetHandler 0

/-- target1_handler (systimer.rs lines 470-477). -/
def target1_handler : SysState → SysState := targetHandler 1

/-- target2_handler (systimer.rs lines 479-486). -/
def target2_handler : SysState → SysState := targetHandler 2

/-- DelayNs::delay_ns (systimer.rs lines 447-452): truncating-divide the
nanosecond argument by 1000 to get a microsecond period, arm the periodic alarm
with it, then construct the alarm future (whose await drives the bridge). -/
def delayNs (fam : Family) (n : Fin 3) (ns : Nat) (prio : Nat) (s : SysState) : SysState :=
  alarmFutureNew n prio (setPeriod fam n (ns / 1000) s)

/-- Single steps of the wait-cycle setup, used to state the order in which
AlarmFuture::new touches the hardware. -/
inductive BridgeAction where
  | clearPending (n : Fin 3)
  | bindVector (n : Fin 3) (h : Fin 3)
  | enableVector (n : Fin 3) (prio : Nat)
  | setIntEnable (n : Fin 3) (val : Bool)
  deriving DecidableEq

/-- State effect of one wait-cycle setup step. -/
def applyAction (s : SysState) : BridgeAction → SysState
  | .clearPending n => clearInterruptInternal n s
  | .bindVector n h => { s with bound := Function.update s.bound n (some h) }
  | .enableVector n p => { s with vec_prio := Function.update s.vec_prio n (some p) }
  | .setIntEnable n v => enableInterruptInternal n v s

/-- The ordered list of hardware-touching steps performed by AlarmFuture::new
(systimer.rs lines 386-414). -/
def alarmFutureNewTrace (n : Fin 3) (prio : Nat) : List BridgeAction :=
  [.clearPending n, .bindVector n (boundHandler n), .enableVector n prio,
   .setIntEnable n true]

/-- How an alarm handle can come into existence through the public API:
either as one of the fields `alarm0` / `alarm1` / `alarm2` of a
`SystemTimer::new` / `new_async` result (the only safe path — `Alarm::new`
itself is a private constructor, systimer.rs lines 138-141), or through the
explicitly `unsafe` `Alarm::<_, _, N>::conjure` constructors (systimer.rs
lines 327-361). -/
inductive AlarmCtor where
  | viaSystemTimer (channel : Fin 3)
  | viaConjure (channel : Fin 3)
  deriving DecidableEq, Fintype

/-- Channel index of a constructed handle. -/
def AlarmCtor.channel : AlarmCtor → Fin 3
  | .viaSystemTimer c => c
  | .viaConjure c => c

/-- Whether the construction path is safe Rust: the `SystemTimer` constructor
fields are safe, `conjure` is declared `unsafe`. -/
def AlarmCtor.isSafe : AlarmCtor → Bool
  | .viaSystemTimer _ => true
  | .viaConjure _ => false

/-- The alarm handles produced by one call of SystemTimer::new or
SystemTimer::new_async (systimer.rs lines 71-81 and 110-120): exactly one
handle for each of the channels 0, 1, 2. -/
def systemTimerNewAlarms : List AlarmCtor :=
  [.viaSystemTimer 0, .viaSystemTimer 1, .viaSystemTimer 2]

/-- Alarm modes (the `Target` / `Periodic` marker types). -/
inductive AlarmMode where
  | target
  | periodic
  deriving DecidableEq, Fintype

/-- An ETM-exported SYSTIMER event: the wrapped alarm's mode and channel. -/
structure SysTimerEtmEvent where
  mode : AlarmMode
  channel : Fin 3
  deriving DecidableEq

/-- SysTimerEtmEvent::new (systimer.rs lines 521-523): wrap the alarm; no
register access is performed, so the driver state is returned unchanged. -/
def SysTimerEtmEvent.new (m : AlarmMode) (n : Fin 3) (s : SysState) :
    SysTimerEtmEvent × SysState :=
  (⟨m, n⟩, s)

/-- EtmEvent::id for SysTimerEtmEvent (systimer.rs lines 538-540): `50 + N`. -/
def SysTimerEtmEvent.id (e : SysTimerEtmEvent) : Nat :=
  50 + e.channel.val

/-- A concrete reset-like driver state used as a witness input. -/
def initState : SysState :=
  { chan := fun _ =>
      { period_mode := false, period := 0, unit_sel := false, work_en := false,
        target_hi := 0, target_lo := 0 }
    xtal_step := 0
    stall_en := true
    work_en := fun _ => false
    etm_en := false
    int_ena := fun _ => false
    pending := fun _ => false
    bound := fun _ => none
    vec_prio := fun _ => none
    wakers := fun _ => none
    woken := [] }

/-- A concrete state with every channel's interrupt-enable bit set (an armed
wait in progress). -/
def armedState : SysState :=
  { initState with int_ena := fun _ => true }

/-- A concrete armed state whose waker slots hold waker 7. -/
def wakerState : SysState :=
  { armedState with wakers := fun _ => some 7 }

/- ### Helper lemmas -/

/-- Waking a slot does not touch the interrupt-enable register. -/
theorem wakeSlot_int_ena (n : Fin 3) (s : SysState) :
    (wakeSlot n s).int_ena = s.int_ena := by
  unfold wakeSlot
  rcases hw : s.wakers n with _ | w <;> simp

/-- Waking a slot does not touch the pending register. -/
theorem wakeSlot_pending (n : Fin 3) (s : SysState) :
    (wakeSlot n s).pending = s.pending := by
  unfold wakeSlot
  rcases hw : s.wakers n with _ | w <;> simp

/-- Waking a slot does not touch the channel registers. -/
theorem wakeSlot_chan (n : Fin 3) (s : SysState) :
    (wakeSlot n s).chan = s.chan := by
  unfold wakeSlot
  rcases hw : s.wakers n with _ | w <;> simp

/-- Constructing the alarm future does not touch the channel registers. -/
theorem alarmFutureNew_chan (n : Fin 3) (p : Nat) (s : SysState) :
    (alarmFutureNew n p s).chan = s.chan := rfl

/- ### Claims -/

/-- Claim C3: for every duration `d` and every channel, `set_period d` on a
Periodic-mode alarm sets the period-mode bit, writes the converted tick
interval into the period field, and writes zero into both compare halves; the
resulting channel register state is the same for any two invocations with the
same `d`, whatever happened to the state in between (zero-baseline phase
reset). -/
theorem systimer_c3 (fam : Family) (n : Fin 3) (d : Nat) (s : SysState) :
    ((setPeriod fam n d s).chan n).period_mode = true
    ∧ ((setPeriod fam n d s).chan n).period = periodTicks fam d
    ∧ ((setPeriod fam n d s).chan n).target_hi = 0
    ∧ ((setPeriod fam n d s).chan n).target_lo = 0
    ∧ ∀ s2 : SysState, (setPeriod fam n d s2).chan n = (setPeriod fam n d s).chan n := by
  cases fam <;>
    refine ⟨?_, ?_, ?_, ?_, fun s2 => ?_⟩ <;>
      simp [setPeriod, configure, Function.update_same]

/-- Claim C4, counterexample: at one minute (60 000 000 µs) on the 80 MHz
family, the `u32` multiplication wraps, so the period written is not the exact
product `microseconds * (ticks_per_second / 1_000_000)`. -/
theorem systimer_c4_counterexample :
    ((setPeriod Family.esp32s2 0 60000000 initState).chan 0).period ≠
      60000000 * (Family.esp32s2.ticksPerSecond / 1000000) := by
  decide

/-- Claim C4 (amended): for every caller-supplied duration (a `u32` number of
microseconds), the period written equals
`microseconds * (ticks_per_second / 1_000_000)` reduced modulo `2 ^ 32`
(u32 wrapping multiplication); whenever that product fits in 32 bits the
written value is the exact product. -/
theorem systimer_c4 (fam : Family) (n : Fin 3) (us : Nat) (s : SysState)
    (h : us < 2 ^ 32) :
    ((setPeriod fam n us s).chan n).period
        = (us * (fam.ticksPerSecond / 1000000)) % 2 ^ 32
    ∧ (us * (fam.ticksPerSecond / 1000000) < 2 ^ 32 →
        ((setPeriod fam n us s).chan n).period
          = us * (fam.ticksPerSecond / 1000000)) := by
  have h1 : ((setPeriod fam n us s).chan n).period
      = (us * (fam.ticksPerSecond / 1000000)) % 2 ^ 32 := by
    cases fam <;> simp [setPeriod, configure, periodTicks, Function.update_same]
  exact ⟨h1, fun hlt => by rw [h1, Nat.mod_eq_of_lt hlt]⟩

/-- Claim C4 witness: at 1000 µs on the 16 MHz family the product is 16000,
which fits in 32 bits, so the exact value is written. -/
theorem systimer_c4_witness :
    (1000 : Nat) < 2 ^ 32
    ∧ ((setPeriod Family.esp32c3 0 1000 initState).chan 0).period
        = 1000 * (Family.esp32c3.ticksPerSecond / 1000000) :=
  ⟨by norm_num,
    (systimer_c4 Family.esp32c3 0 1000 initState (by norm_num)).2
      (by norm_num [Family.ticksPerSecond])⟩

/-- Claim C5: for every 64-bit timestamp `t` and every channel, `set_target t`
clears the period-mode bit and writes the absolute compare value split as high
half `t >>> 32` and low half `t &&& 0xFFFF_FFFF`. -/
theorem systimer_c5 (fam : Family) (n : Fin 3) (t : Nat) (s : SysState)
    (h : t < 2 ^ 64) :
    ((setTarget fam n t s).chan n).period_mode = false
    ∧ ((setTarget fam n t s).chan n).target_hi = t >>> 32
    ∧ ((setTarget fam n t s).chan n).target_lo = t &&& 0xFFFFFFFF := by
  have hdiv : t / 2 ^ 32 < 2 ^ 32 := by
    apply Nat.div_lt_of_lt_mul
    calc t < 2 ^ 64 := h
    _ = 2 ^ 32 * 2 ^ 32 := by norm_num
  refine ⟨?_, ?_, ?_⟩
  · cases fam <;> simp [setTarget, configure, Function.update_same]
  · have hv : ((setTarget fam n t s).chan n).target_hi = (t / 2 ^ 32) % 2 ^ 32 := by
      cases fam <;> simp [setTarget, configure, Function.update_same]
    rw [hv, Nat.mod_eq_of_lt hdiv, Nat.shiftRight_eq_div_pow]
  · have hv : ((setTarget fam n t s).chan n).target_lo = t % 2 ^ 32 := by
      cases fam <;> simp [setTarget, configure, Function.update_same]
    rw [hv, show (0xFFFFFFFF : Nat) = 2 ^ 32 - 1 by norm_num,
       Nat.and_pow_two_sub_one_eq_mod]

/-- Claim C5 witness at the timestamp 2^32 + 5: high half 1, low half 5. -/
theorem systimer_c5_witness :
    (4294967301 : Nat) < 2 ^ 64
    ∧ ((setTarget Family.esp32c3 1 4294967301 initState).chan 1).target_hi
        = 4294967301 >>> 32 :=
  ⟨by norm_num,
    (systimer_c5 Family.esp32c3 1 4294967301 initState (by norm_num)).2.1⟩

/-- Claim C1: in the alarm future's poll, the caller's waker is registered into
the channel's slot before the completion check (the returned state holds the
waker regardless of the outcome), and both interleavings with the hardware fire
resolve the wait: if the handler fired before the poll, the poll returns Ready
at once; if the poll came first (returning Pending with the waker registered),
the handler then wakes exactly that waker and the next poll returns Ready — no
wakeup is permanently lost. -/
theorem systimer_c1 (n : Fin 3) (w w2 : Waker) (s : SysState)
    (h : s.int_ena n = true) :
    (∀ t : SysState, ((pollAlarmFuture n w t).2).wakers n = some w)
    ∧ (pollAlarmFuture n w (targetHandler n s)).1 = true
    ∧ (pollAlarmFuture n w s).1 = false
    ∧ ((pollAlarmFuture n w s).2).wakers n = some w
    ∧ w ∈ (targetHandler n ((pollAlarmFuture n w s).2)).woken
    ∧ (pollAlarmFuture n w2 (targetHandler n ((pollAlarmFuture n w s).2))).1 = true := by
  refine ⟨fun t => ?_, ?_, ?_, ?_, ?_, ?_⟩
  · simp [pollAlarmFuture, Function.update_same]
  · simp [pollAlarmFuture, eventBitIsClear, targetHandler, wakeSlot_int_ena,
          Function.update_same]
  · simp [pollAlarmFuture, eventBitIsClear, h]
  · simp [pollAlarmFuture, Function.update_same]
  · simp [targetHandler, wakeSlot, pollAlarmFuture, Function.update_same]
  · simp [pollAlarmFuture, eventBitIsClear, targetHandler, wakeSlot_int_ena,
          Function.update_same]

/-- Claim C1 witness on a concrete armed state: fire-then-poll resolves, and a
first poll while armed is Pending. -/
theorem systimer_c1_witness :
    armedState.int_ena 0 = true
    ∧ (pollAlarmFuture 0 1 (targetHandler 0 armedState)).1 = true
    ∧ (pollAlarmFuture 0 1 armedState).1 = false :=
  ⟨rfl, (systimer_c1 0 1 2 armedState rfl).2.1,
    (systimer_c1 0 1 2 armedState rfl).2.2.1⟩

/-- Claim C2: one `SystemTimer` construction produces exactly one alarm handle
per channel (the per-channel counts are 1 and the channels of the produced
handles are pairwise distinct), every handle it produces is a safe
construction, `conjure` is the unsafe path, and any two distinct handles
sharing a channel require at least one of them to come from the unsafe
`conjure` path. -/
theorem systimer_c2 :
    (∀ c : Fin 3, systemTimerNewAlarms.count (AlarmCtor.viaSystemTimer c) = 1)
    ∧ (systemTimerNewAlarms.map AlarmCtor.channel).Nodup
    ∧ (∀ a ∈ systemTimerNewAlarms, a.isSafe = true)
    ∧ (∀ c : Fin 3, (AlarmCtor.viaConjure c).isSafe = false)
    ∧ (∀ a b : AlarmCtor, a ∈ systemTimerNewAlarms → b ∈ systemTimerNewAlarms →
        a.channel = b.channel → a = b)
    ∧ (∀ a b : AlarmCtor, a.channel = b.channel → a ≠ b →
        a.isSafe = false ∨ b.isSafe = false) := by
  decide

/-- Claim C2 witness: channel 0's handle is among the constructor's products,
and the exclusivity conjunct applies to it. -/
theorem systimer_c2_witness :
    AlarmCtor.viaSystemTimer 0 ∈ systemTimerNewAlarms
    ∧ AlarmCtor.viaSystemTimer 0 = AlarmCtor.viaSystemTimer 0 :=
  ⟨by decide,
    systimer_c2.2.2.2.2.1 (AlarmCtor.viaSystemTimer 0) (AlarmCtor.viaSystemTimer 0)
      (by decide) (by decide) rfl⟩

/-- Claim C6: constructing the per-channel alarm future performs, in this
order, (1) clear the channel's stale pending flag, (2) bind the channel's
interrupt vector to the bridge's handler and enable it at its priority,
(3) set the channel's interrupt-enable bit; and the resulting state shows all
three effects. -/
theorem systimer_c6 (n : Fin 3) (p : Nat) (s : SysState) :
    alarmFutureNew n p s = List.foldl applyAction s (alarmFutureNewTrace n p)
    ∧ alarmFutureNewTrace n p
        = [BridgeAction.clearPending n, BridgeAction.bindVector n (boundHandler n),
           BridgeAction.enableVector n p, BridgeAction.setIntEnable n true]
    ∧ (alarmFutureNew n p s).pending n = false
    ∧ (alarmFutureNew n p s).bound n = some (boundHandler n)
    ∧ (alarmFutureNew n p s).vec_prio n = some p
    ∧ (alarmFutureNew n p s).int_ena n = true := by
  refine ⟨rfl, rfl, ?_, ?_, ?_, ?_⟩ <;>
    simp [alarmFutureNew, enableInterruptInternal, clearInterruptInternal,
          Function.update_same]

/-- Claim C7: the hardware interrupt handler for channel `n` clears exactly
that channel's interrupt-enable bit, wakes whatever waker currently occupies
that channel's slot (and nothing beyond clearing the bit when the slot is
empty), and leaves the pending flags, all channel registers, and the other
channels' enable bits and waker slots unchanged. -/
theorem systimer_c7 (n : Fin 3) (s : SysState) :
    (targetHandler n s).int_ena n = false
    ∧ (∀ m : Fin 3, m ≠ n → (targetHandler n s).int_ena m = s.int_ena m)
    ∧ (targetHandler n s).pending = s.pending
    ∧ (targetHandler n s).chan = s.chan
    ∧ (∀ m : Fin 3, m ≠ n → (targetHandler n s).wakers m = s.wakers m)
    ∧ (∀ w : Waker, s.wakers n = some w → (targetHandler n s).woken = w :: s.woken)
    ∧ (s.wakers n = none →
        targetHandler n s = { s with int_ena := Function.update s.int_ena n false }) := by
  refine ⟨?_, ?_, ?_, ?_, ?_, ?_, ?_⟩
  · simp [targetHandler, wakeSlot_int_ena, Function.update_same]
  · intro m hm
    simp [targetHandler, wakeSlot_int_ena, Function.update_noteq hm]
  · simp [targetHandler, wakeSlot_pending]
  · simp [targetHandler, wakeSlot_chan]
  · intro m hm
    unfold targetHandler wakeSlot
    rcases hw : s.wakers n with _ | w <;> simp [hw, Function.update_noteq hm]
  · intro w hw
    simp [targetHandler, wakeSlot, hw]
  · intro hw
    simp [targetHandler, wakeSlot, hw]

/-- Claim C7 witness: on a concrete state the handler for channel 0 leaves
channel 1's interrupt-enable bit unchanged. -/
theorem systimer_c7_witness :
    (1 : Fin 3) ≠ 0
    ∧ (targetHandler 0 wakerState).int_ena 1 = wakerState.int_ena 1 :=
  ⟨by decide, (systimer_c7 0 wakerState).2.1 1 (by decide)⟩

/-- Claim C8: the exported event's identity is `50 + N` for every channel and
every alarm mode (for channel 2 it is 52), creating the export returns the
driver state unchanged and preserves the alarm's mode, and the identity does
not depend on the mode. -/
theorem systimer_c8 (m m2 : AlarmMode) (n : Fin 3) (s : SysState) :
    (SysTimerEtmEvent.new m n s).2 = s
    ∧ (SysTimerEtmEvent.new m n s).1.id = 50 + n.val
    ∧ (SysTimerEtmEvent.new m n s).1.mode = m
    ∧ (SysTimerEtmEvent.new m n s).1.channel = n
    ∧ (SysTimerEtmEvent.new m 2 s).1.id = 52
    ∧ (SysTimerEtmEvent.new m n s).1.id = (SysTimerEtmEvent.new m2 n s).1.id :=
  ⟨rfl, rfl, rfl, rfl, rfl, rfl⟩

/-- Claim C9: clearing the interrupt when the channel's pending flag is
already clear is a no-op: the whole driver state is unchanged (and no error is
possible, the operation being a total function into states). -/
theorem systimer_c9 (n : Fin 3) (s : SysState) (h : s.pending n = false) :
    clearInterruptInternal n s = s := by
  unfold clearInterruptInternal
  rw [← h, Function.update_eq_self]

/-- Claim C9 witness: on the reset state, whose pending flags are clear,
clearing channel 0's interrupt changes nothing. -/
theorem systimer_c9_witness :
    initState.pending 0 = false ∧ clearInterruptInternal 0 initState = initState :=
  ⟨rfl, systimer_c9 0 initState rfl⟩

/-- Claim C10: `delay_ns ns` converts `ns` to a period of `ns / 1000`
microseconds by truncating division before arming the periodic alarm and
building the future; in particular every `ns < 1000` configures a zero-length
period (the request is neither rounded up nor rejected — the setup is a total
function into states). -/
theorem systimer_c10 (fam : Family) (n : Fin 3) (ns : Nat) (p : Nat) (s : SysState) :
    delayNs fam n ns p s = alarmFutureNew n p (setPeriod fam n (ns / 1000) s)
    ∧ ((delayNs fam n ns p s).chan n).period = periodTicks fam (ns / 1000)
    ∧ (ns < 1000 → ((delayNs fam n ns p s).chan n).period = 0) := by
  have hc : ((delayNs fam n ns p s).chan n).period = periodTicks fam (ns / 1000) := by
    simp only [delayNs, alarmFutureNew_chan]
    cases fam <;> simp [setPeriod, configure, Function.update_same]
  refine ⟨rfl, hc, fun hlt => ?_⟩
  rw [hc, Nat.div_eq_of_lt hlt]
  simp [periodTicks]

/-- Claim C10 witness: 999 ns arms a zero-length period. -/
theorem systimer_c10_witness :
    (999 : Nat) < 1000
    ∧ ((delayNs Family.esp32c3 0 999 1 initState).chan 0).period = 0 :=
  ⟨by norm_num, (systimer_c10 Family.esp32c3 0 999 1 initState).2.2 (by norm_num)⟩
